import Mathlib

/-!
Verification of the ultra-low-latency BBO ingress path: a shallow embedding of
the C++ sources (`bbo_data.h`, `bbo_pool.h`, `bbo_parser_fast.h`,
`dpdk_receiver.h`, `dpdk_receiver.cpp`) into Lean.

Modelling conventions:
* raw memory is a `List Nat` of byte values; a read past the end of the list
  models unspecified memory and yields 0 (`List.getD`);
* machine integers are `Nat` with explicit `% 2^32` / `% 2^64` where the
  C++ arithmetic wraps; the signed 64-bit cast is made explicit (`toInt64`);
* the IEEE-754 `double` fields hold exact rationals; the source constant
  `PRICE_MULTIPLIER = 0.0001` is taken at its documented value `1/10000`
  (source comment: "1/10000 for 4 decimal places");
* stateful code is explicit state passing: `process_packet` maps a receiver
  state and one frame to the next receiver state.
-/

/-- Wrap modulus of a `uint32_t`. -/
def U32 : Nat := 2 ^ 32

/-- Wrap modulus of a `size_t` / `uint64_t`. -/
def U64 : Nat := 2 ^ 64

/-- Read one byte of memory; bytes beyond the frame model unspecified memory as 0. -/
def readByte (data : List Nat) (i : Nat) : Nat := data.getD i 0

/-- Big-endian 16-bit load at a byte offset (the effect of `rte_be_to_cpu_16`
on two wire bytes). -/
def be16 (data : List Nat) (off : Nat) : Nat :=
  readByte data off * 256 + readByte data (off + 1)

/-- Big-endian 32-bit load at a byte offset (the effect of `__builtin_bswap32`
on a little-endian 32-bit load of four wire bytes). -/
def be32 (data : List Nat) (off : Nat) : Nat :=
  readByte data off * 16777216 + readByte data (off + 1) * 65536 +
    readByte data (off + 2) * 256 + readByte data (off + 3)

/-- Source constant `PRICE_MULTIPLIER` (`0.0001`, documented as 1/10000). -/
def PRICE_MULTIPLIER : ℚ := 1 / 10000

/-- Source constant `BBO_MIN_SIZE`. -/
def BBO_MIN_SIZE : Nat := 28

/-- Source constant `BBO_FULL_SIZE`. -/
def BBO_FULL_SIZE : Nat := 44

/-- Source constant `BboFlags::HAS_FPGA_TIMESTAMPS` (bit 0, the
hardware-timestamp flag). -/
def HAS_FPGA_TIMESTAMPS : Nat := 1

/-- Source constant `BboFlags::IS_SYNTHETIC` (bit 1). -/
def IS_SYNTHETIC : Nat := 2

/-- Source constant `BboFlags::IS_STALE` (bit 2). -/
def IS_STALE : Nat := 4

/-- The 64-byte `BBODataFast` record (`bbo_data.h`).  `symbol` holds the 8
symbol bytes; the two price fields and the spread are the source's `double`
fields modelled as exact rationals. -/
structure BBODataFast where
  symbol : List Nat
  bid_price : ℚ
  ask_price : ℚ
  bid_shares : Nat
  ask_shares : Nat
  spread : ℚ
  timestamp_ns : Nat
  sequence : Nat
  valid : Nat
  flags : Nat
deriving Repr, DecidableEq, Inhabited

/-- Effect of `BBODataFast::clear()`: the all-zero record. -/
def BBODataFast.clear : BBODataFast :=
  { symbol := List.replicate 8 0, bid_price := 0, ask_price := 0,
    bid_shares := 0, ask_shares := 0, spread := 0, timestamp_ns := 0,
    sequence := 0, valid := 0, flags := 0 }

/-- Strip trailing spaces and NUL bytes, as the `while` loop of
`BBODataFast::get_symbol` does on the 8-byte array. -/
def trimTrailing (l : List Nat) : List Nat :=
  (l.reverse.dropWhile (fun c => c == 32 || c == 0)).reverse

/-- Source `BBODataFast::set_symbol(sym, len)`: copy `min len 8` bytes and
space-pad the remainder of the 8-byte field. -/
def BBODataFast.set_symbol (b : BBODataFast) (sym : List Nat) (len : Nat) :
    BBODataFast :=
  { b with symbol := sym.take (min len 8) ++ List.replicate (8 - min len 8) 32 }

/-- Source `BBODataFast::get_symbol()`: the symbol with trailing spaces and
NULs removed. -/
def BBODataFast.get_symbol (b : BBODataFast) : List Nat :=
  trimTrailing b.symbol

/-- The pre-allocated `BBOPool` (`bbo_pool.h`): a slot array and a wrapping
`uint32_t` head counter. -/
structure BBOPool where
  size : Nat
  head : Nat
  slots : List BBODataFast
deriving Repr, DecidableEq

/-- Source `BBOPool::acquire()`: `head_.fetch_add(1) & (POOL_SIZE - 1)`.
Returns the acquired slot index and the pool with the advanced head. -/
def BBOPool.acquire (p : BBOPool) : Nat × BBOPool :=
  (p.head &&& (p.size - 1), { p with head := (p.head + 1) % U32 })

/-- One head advance of the pool, for iterating consecutive acquires. -/
def poolStep (p : BBOPool) : BBOPool := p.acquire.2

/-- Source `BBOParserFast::parse(data, len, pool, ts_ns, sequence)`
(`bbo_parser_fast.h`): reject `len < BBO_MIN_SIZE`, acquire a slot, copy the
8 symbol bytes, byte-swap the five big-endian 32-bit scalars at offsets
8/12/16/20/24, scale the prices by `PRICE_MULTIPLIER`, stamp timestamp,
sequence and `valid = 1`, and set `flags` to `HAS_FPGA_TIMESTAMPS` iff
`len >= BBO_FULL_SIZE`.  The populated record is written into the acquired
slot and returned. -/
def BBOParserFast.parse (data : List Nat) (len : Nat) (pool : BBOPool)
    (ts_ns : Nat) (sequence : Nat) : Option BBODataFast × BBOPool :=
  if len < BBO_MIN_SIZE then (none, pool)
  else
    let a := pool.acquire
    let bbo : BBODataFast :=
      { symbol := [readByte data 0, readByte data 1, readByte data 2,
          readByte data 3, readByte data 4, readByte data 5, readByte data 6,
          readByte data 7],
        bid_price := be32 data 8 * PRICE_MULTIPLIER,
        ask_price := be32 data 16 * PRICE_MULTIPLIER,
        bid_shares := be32 data 12,
        ask_shares := be32 data 20,
        spread := be32 data 24 * PRICE_MULTIPLIER,
        timestamp_ns := ts_ns,
        sequence := sequence,
        valid := 1,
        flags := if BBO_FULL_SIZE ≤ len then HAS_FPGA_TIMESTAMPS else 0 }
    (some bbo, { a.2 with slots := a.2.slots.set a.1 bbo })

/-- Value of a `uint64_t` reinterpreted by `static_cast<int64_t>`. -/
def toInt64 (n : Nat) : Int :=
  if n % U64 < 2 ^ 63 then (n % U64 : Int) else (n % U64 : Int) - (U64 : Int)

/-- The downstream `gateway::BBOData` record written into the shared-memory
ring: 16 symbol bytes, the copied market fields, and the nine
hardware-timestamp fields zeroed by the hot path. -/
structure BBOData where
  symbol : List Nat
  bid_price : ℚ
  ask_price : ℚ
  bid_shares : Nat
  ask_shares : Nat
  spread : ℚ
  timestamp_ns : Int
  valid : Bool
  fpga_ts_t1 : Nat
  fpga_ts_t2 : Nat
  fpga_ts_t3 : Nat
  fpga_ts_t4 : Nat
  fpga_latency_a_us : ℚ
  fpga_latency_b_us : ℚ
  fpga_latency_us : ℚ
  fpga_rx_timestamp : Nat
  fpga_tx_timestamp : Nat
deriving Repr, DecidableEq, Inhabited

/-- Record conversion performed by `DPDKReceiver::convert_and_publish`: copy
the 8 symbol bytes, space-pad bytes 8..15 and then null-terminate byte 15,
copy prices, shares, spread, timestamp (cast to `int64_t`) and validity, and
zero every hardware-timestamp field. -/
def to_gateway (fast : BBODataFast) : BBOData :=
  { symbol := [readByte fast.symbol 0, readByte fast.symbol 1,
      readByte fast.symbol 2, readByte fast.symbol 3, readByte fast.symbol 4,
      readByte fast.symbol 5, readByte fast.symbol 6, readByte fast.symbol 7,
      32, 32, 32, 32, 32, 32, 32, 0],
    bid_price := fast.bid_price,
    ask_price := fast.ask_price,
    bid_shares := fast.bid_shares,
    ask_shares := fast.ask_shares,
    spread := fast.spread,
    timestamp_ns := toInt64 fast.timestamp_ns,
    valid := fast.valid != 0,
    fpga_ts_t1 := 0, fpga_ts_t2 := 0, fpga_ts_t3 := 0, fpga_ts_t4 := 0,
    fpga_latency_a_us := 0, fpga_latency_b_us := 0, fpga_latency_us := 0,
    fpga_rx_timestamp := 0, fpga_tx_timestamp := 0 }

/-- Modelled from the spec: the cross-process `disruptor::BboRingBuffer`
(its code lives outside this repository).  Per the spec it is a bounded
SPSC ring whose `try_publish(record) → bool` returns `false` when full and
otherwise deposits the record. -/
structure BboRingBuffer where
  capacity : Nat
  entries : List BBOData
deriving Repr, DecidableEq

/-- Modelled from the spec: `try_publish` appends when the ring has space and
returns `true`; when full it leaves the ring unchanged and returns `false`.
It never blocks. -/
def BboRingBuffer.try_publish (r : BboRingBuffer) (x : BBOData) :
    Bool × BboRingBuffer :=
  if r.entries.length < r.capacity then
    (true, { r with entries := r.entries ++ [x] })
  else
    (false, r)

/-- The `DPDKReceiver::Config` fields the hot path reads (`dpdk_receiver.h`,
defaults `udp_port = 12345`, `enable_stats = true`). -/
structure Config where
  udp_port : Nat
  enable_stats : Bool
deriving Repr, DecidableEq

/-- The `DPDKReceiver::Config` defaults. -/
def Config.default : Config := { udp_port := 12345, enable_stats := true }

/-- The `DPDKReceiver::Stats` counters. -/
structure Stats where
  packets_received : Nat
  packets_processed : Nat
  packets_dropped : Nat
  parse_errors : Nat
  ring_buffer_full : Nat
deriving Repr, DecidableEq

/-- The receiver state touched by the hot path: configuration, counters, the
BBO pool, the shared-memory ring and the `uint32_t` packet sequence counter. -/
structure DPDKReceiver where
  cfg : Config
  stats : Stats
  pool : BBOPool
  ring : BboRingBuffer
  sequence : Nat
deriving Repr, DecidableEq

/-- Source `DPDKReceiver::convert_and_publish(fast)`: build the gateway
record, call `try_publish` once and, when it returns `false` and statistics
are enabled, increment `ring_buffer_full`.  The C++ function returns `void`;
its effect is the returned ring and counter state. -/
def DPDKReceiver.convert_and_publish (cfg : Config) (ring : BboRingBuffer)
    (stats : Stats) (fast : BBODataFast) : BboRingBuffer × Stats :=
  let pub := ring.try_publish (to_gateway fast)
  if pub.1 then (pub.2, stats)
  else
    (pub.2,
      if cfg.enable_stats then
        { stats with ring_buffer_full := stats.ring_buffer_full + 1 }
      else stats)

/-- IP header length in bytes, `(ip->version_ihl & 0x0F) * 4`; the IPv4
header starts at frame offset 14. -/
def ihlOf (frame : List Nat) : Nat := (readByte frame 14 &&& 15) * 4

/-- Frame offset of the UDP header, `14 + ihl`. -/
def udpOffset (frame : List Nat) : Nat := 14 + ihlOf frame

/-- Payload length `rte_be_to_cpu_16(udp->dgram_len) - sizeof(rte_udp_hdr)`,
computed in wrapping `size_t` arithmetic. -/
def payloadLenOf (frame : List Nat) : Nat :=
  (be16 frame (udpOffset frame + 4) + U64 - 8) % U64

/-- The UDP payload bytes, starting right after the 8-byte UDP header. -/
def payloadOf (frame : List Nat) : List Nat := frame.drop (udpOffset frame + 8)

/-- Ethernet protocol number of IPv4 (`RTE_ETHER_TYPE_IPV4`). -/
def ETHER_TYPE_IPV4 : Nat := 2048

/-- IP protocol number of UDP (`IPPROTO_UDP`). -/
def IPPROTO_UDP : Nat := 17

/-- Source `DPDKReceiver::process_packet(pkt)` on one frame: filter on
ethertype at offset 12, IP protocol at offset 23 and UDP destination port;
then count the packet, parse the payload with the current sequence number,
and either convert-and-publish (counting `packets_processed`) or count a
parse error.  `ts_ns` stands for the converted `rdtsc()` capture. -/
def DPDKReceiver.process_packet (r : DPDKReceiver) (frame : List Nat)
    (ts_ns : Nat) : DPDKReceiver :=
  if be16 frame 12 ≠ ETHER_TYPE_IPV4 then r
  else if readByte frame 23 ≠ IPPROTO_UDP then r
  else if be16 frame (udpOffset frame + 2) ≠ r.cfg.udp_port then r
  else
    let stats0 :=
      if r.cfg.enable_stats then
        { r.stats with packets_received := r.stats.packets_received + 1 }
      else r.stats
    let pr := BBOParserFast.parse (payloadOf frame) (payloadLenOf frame)
      r.pool ts_ns r.sequence
    let seq1 := (r.sequence + 1) % U32
    match pr.1 with
    | some bbo =>
        let cp := DPDKReceiver.convert_and_publish r.cfg r.ring stats0 bbo
        let stats1 :=
          if r.cfg.enable_stats then
            { cp.2 with packets_processed := cp.2.packets_processed + 1 }
          else cp.2
        { r with stats := stats1, pool := pr.2, ring := cp.1, sequence := seq1 }
    | none =>
        let stats1 :=
          if r.cfg.enable_stats then
            { stats0 with parse_errors := stats0.parse_errors + 1 }
          else stats0
        { r with stats := stats1, pool := pr.2, sequence := seq1 }

/-- High byte written by `rte_cpu_to_be_16` for a `uint16_t` value. -/
def hiByte (p : Nat) : Nat := (p >>> 8) &&& 255

/-- Low byte written by `rte_cpu_to_be_16` for a `uint16_t` value. -/
def loByte (p : Nat) : Nat := p &&& 255

/-- The 44-byte synthetic BBO payload built by
`DPDKReceiver::create_dummy_packet`: symbol `"WARMUP  "`, bid and ask raw
price 1500000, shares 100, spread raw 1000, and 16 zero timestamp bytes. -/
def warmPayload : List Nat :=
  [87, 65, 82, 77, 85, 80, 32, 32,
   0, 22, 227, 96, 0, 0, 0, 100, 0, 22, 227, 96, 0, 0, 0, 100, 0, 0, 3, 232,
   0, 0, 0, 0, 0, 0, 0, 0, 0, 0, 0, 0, 0, 0, 0, 0]

/-- First 36 bytes of the dummy frame: zeroed Ethernet addresses, ethertype
IPv4, the `0x45` IPv4 header with `total_length = 72` and protocol UDP, and
the zero UDP source port. -/
def warmFramePre : List Nat :=
  [0, 0, 0, 0, 0, 0, 0, 0, 0, 0, 0, 0, 8, 0,
   69, 0, 0, 72, 0, 0, 0, 0, 0, 17, 0, 0, 0, 0, 0, 0, 0, 0, 0, 0,
   0, 0]

/-- Source `DPDKReceiver::create_dummy_packet()` as the 86-byte frame it
writes: headers, the configured UDP destination port in network byte order,
`dgram_len = 52`, zero checksum, and the 44-byte synthetic payload. -/
def create_dummy_packet (udp_port : Nat) : List Nat :=
  warmFramePre ++ [hiByte udp_port, loByte udp_port] ++
    ([0, 52, 0, 0] ++ warmPayload)

/-- Concrete 1024-slot pool fixture in its initial state. -/
def pool0 : BBOPool := { size := 1024, head := 0, slots := [] }

/-- Concrete ring fixture: the default 16384-record ring, empty. -/
def ring0 : BboRingBuffer := { capacity := 16384, entries := [] }

/-- Concrete zeroed statistics fixture. -/
def stats0 : Stats :=
  { packets_received := 0, packets_processed := 0, packets_dropped := 0,
    parse_errors := 0, ring_buffer_full := 0 }

/-- Concrete receiver fixture: default configuration, fresh state. -/
def rcv0 : DPDKReceiver :=
  { cfg := Config.default, stats := stats0, pool := pool0, ring := ring0,
    sequence := 0 }

/-- The literal 28-byte payload of the minimal-parse scenario:
`41 41 50 4C 20 20 20 20 00 16 E3 60 00 00 00 64 00 16 E5 A0 00 00 00 64
00 00 27 10`. -/
def aaplPayload : List Nat :=
  [65, 65, 80, 76, 32, 32, 32, 32,
   0, 22, 227, 96, 0, 0, 0, 100, 0, 22, 229, 160, 0, 0, 0, 100, 0, 0, 39, 16]

/-- The record `BBOParserFast::parse` produces from `aaplPayload` at
timestamp 0, sequence 0: note the ask raw field decodes to 1500576. -/
def aaplRec : BBODataFast :=
  { symbol := [65, 65, 80, 76, 32, 32, 32, 32],
    bid_price := (be32 aaplPayload 8 : ℚ) * PRICE_MULTIPLIER,
    ask_price := (be32 aaplPayload 16 : ℚ) * PRICE_MULTIPLIER,
    bid_shares := 100, ask_shares := 100,
    spread := (be32 aaplPayload 24 : ℚ) * PRICE_MULTIPLIER,
    timestamp_ns := 0, sequence := 0, valid := 1, flags := 0 }

/-- The record `BBOParserFast::parse` produces from the synthetic warm-up
payload at a given timestamp and sequence number. -/
def warmRec (ts seq : Nat) : BBODataFast :=
  { symbol := [87, 65, 82, 77, 85, 80, 32, 32],
    bid_price := (be32 warmPayload 8 : ℚ) * PRICE_MULTIPLIER,
    ask_price := (be32 warmPayload 16 : ℚ) * PRICE_MULTIPLIER,
    bid_shares := 100, ask_shares := 100,
    spread := (be32 warmPayload 24 : ℚ) * PRICE_MULTIPLIER,
    timestamp_ns := ts, sequence := seq, valid := 1, flags := 1 }

/-- A 69-byte IPv4/UDP frame to port 12345 whose `dgram_len` of 35 yields a
truncated 27-byte BBO payload. -/
def frame27 : List Nat :=
  [0, 0, 0, 0, 0, 0, 0, 0, 0, 0, 0, 0, 8, 0,
   69, 0, 0, 55, 0, 0, 0, 0, 0, 17, 0, 0, 0, 0, 0, 0, 0, 0, 0, 0,
   0, 0, 48, 57, 0, 35, 0, 0] ++ List.replicate 27 0

/-- A 64-byte frame with ethertype `0x86DD` (IPv6). -/
def frame6 : List Nat :=
  [0, 0, 0, 0, 0, 0, 0, 0, 0, 0, 0, 0, 134, 221] ++ List.replicate 50 0

/-- An IPv4/UDP frame to port 12345 whose `dgram_len` field decodes to 5,
below the 8-byte UDP header size. -/
def frame9 : List Nat :=
  [0, 0, 0, 0, 0, 0, 0, 0, 0, 0, 0, 0, 8, 0,
   69, 0, 0, 25, 0, 0, 0, 0, 0, 17, 0, 0, 0, 0, 0, 0, 0, 0, 0, 0,
   0, 0, 48, 57, 0, 5, 0, 0]

example : (BBOParserFast.parse (List.replicate 27 0) 27 ⟨1024, 0, []⟩ 0 0).1
    = none := by decide

example : ((BBOParserFast.parse (List.replicate 44 0) 44 ⟨1024, 0, []⟩ 0 0).1.map
    (fun r => r.flags)) = some 1 := by decide

example : payloadLenOf (create_dummy_packet 12345) = 44 := by decide

example : (create_dummy_packet 12345).length = 86 := by decide

example : payloadOf (create_dummy_packet 12345) = warmPayload := by decide

example : be32 warmPayload 8 = 1500000 := by decide

example : be32 warmPayload 24 = 1000 := by decide

/-! ## Helper lemmas -/

/-- Dropping while `p` holds skips a replicated prefix of elements
satisfying `p`. -/
theorem dropWhile_replicate_append (p : Nat → Bool) (a : Nat)
    (hpa : p a = true) (m : Nat) (l : List Nat) :
    (List.replicate m a ++ l).dropWhile p = l.dropWhile p := by
  induction m with
  | zero => simp
  | succ n ih => simp [List.replicate_succ, List.dropWhile_cons, hpa, ih]

/-- Two memories agreeing on their first `n` bytes read equal below `n`. -/
theorem readByte_eq_of_take_eq (d1 d2 : List Nat) (n i : Nat)
    (h : d1.take n = d2.take n) (hi : i < n) :
    readByte d1 i = readByte d2 i := by
  unfold readByte
  rw [List.getD_eq_getElem?_getD, List.getD_eq_getElem?_getD]
  have h1 : (d1.take n)[i]? = (d2.take n)[i]? := by rw [h]
  rw [List.getElem?_take, List.getElem?_take, if_pos hi, if_pos hi] at h1
  rw [h1]

/-! ## Claim C2 -/

/-- C2: a successful parse of a payload of length in [28, 43] leaves the
hardware-timestamp flag bit clear, and any parse with length at least 44
sets it. -/
theorem parse_hw_timestamp_flag (data : List Nat) (len : Nat) (pool : BBOPool)
    (ts seq : Nat) (r : BBODataFast) (p : BBOPool)
    (hp : BBOParserFast.parse data len pool ts seq = (some r, p)) :
    (28 ≤ len → len ≤ 43 → r.flags &&& HAS_FPGA_TIMESTAMPS = 0) ∧
    (44 ≤ len → r.flags &&& HAS_FPGA_TIMESTAMPS = HAS_FPGA_TIMESTAMPS) := by
  unfold BBOParserFast.parse at hp
  by_cases h : len < BBO_MIN_SIZE
  · simp [h] at hp
  · rw [if_neg h] at hp
    obtain ⟨hr, -⟩ := Prod.mk.injEq .. ▸ hp
    obtain rfl := Option.some.inj hr
    constructor
    · intro hge hle
      have : ¬ (BBO_FULL_SIZE ≤ len) := by unfold BBO_FULL_SIZE; omega
      simp only [if_neg this]
      decide
    · intro hge
      have : BBO_FULL_SIZE ≤ len := by unfold BBO_FULL_SIZE; omega
      simp only [if_pos this]
      decide

/-- The pool produced by parsing the warm-up payload from `pool0`. -/
def poolW : BBOPool := { size := 1024, head := 1, slots := [] }

/-- Parsing the 44-byte warm-up payload from the fresh fixture pool yields
the warm-up record. -/
theorem parse_warmPayload_pool0 (ts seq : Nat) :
    BBOParserFast.parse warmPayload 44 pool0 ts seq =
      (some (warmRec ts seq), poolW) := rfl

/-- C2 witness: instantiation at the 44-byte warm-up payload. -/
theorem parse_hw_timestamp_flag_witness :
    ((28 : Nat) ≤ 44 → (44 : Nat) ≤ 43 →
      (warmRec 0 0).flags &&& HAS_FPGA_TIMESTAMPS = 0) ∧
    ((44 : Nat) ≤ 44 →
      (warmRec 0 0).flags &&& HAS_FPGA_TIMESTAMPS = HAS_FPGA_TIMESTAMPS) :=
  parse_hw_timestamp_flag warmPayload 44 pool0 0 0 (warmRec 0 0) poolW
    (parse_warmPayload_pool0 0 0)

/-! ## Claim C4 -/

/-- Pool fixture used by the wrap-around scenario. -/
def pool1024 : BBOPool := { size := 1024, head := 0, slots := [] }

set_option maxRecDepth 8192 in
/-- C4: `acquire` always yields a slot index below the pool size, consecutive
acquires yield consecutive indices modulo the (power-of-two) size, and on a
1024-slot pool the 1025th acquire returns the slot of the 1st. -/
theorem acquire_round_robin (p : BBOPool) (k : Nat) (hk : k ≤ 32)
    (hsz : p.size = 2 ^ k) :
    p.acquire.1 < p.size ∧
    p.acquire.2.acquire.1 = (p.acquire.1 + 1) % p.size ∧
    (poolStep^[1024] pool1024).acquire.1 = pool1024.acquire.1 := by
  have hidx : ∀ q : BBOPool, q.size = 2 ^ k → q.acquire.1 = q.head % 2 ^ k := by
    intro q hq
    show q.head &&& (q.size - 1) = q.head % 2 ^ k
    rw [hq, Nat.and_pow_two_sub_one_eq_mod]
  refine ⟨?_, ?_, by decide⟩
  · rw [hidx p hsz, hsz]
    exact Nat.mod_lt _ (Nat.pos_pow_of_pos k (by norm_num))
  · have hsz2 : p.acquire.2.size = 2 ^ k := hsz
    rw [hidx p hsz, hidx p.acquire.2 hsz2, hsz]
    show (p.head + 1) % U32 % 2 ^ k = (p.head % 2 ^ k + 1) % 2 ^ k
    rw [Nat.mod_add_mod]
    unfold U32
    exact Nat.mod_mod_of_dvd _ (pow_dvd_pow 2 hk)

set_option maxRecDepth 8192 in
/-- C4 witness: instantiation at the fresh 1024-slot pool with k = 10. -/
theorem acquire_round_robin_witness :
    ((10 : Nat) ≤ 32 ∧ pool1024.size = 2 ^ 10) ∧
    (pool1024.acquire.1 < pool1024.size ∧
     pool1024.acquire.2.acquire.1 = (pool1024.acquire.1 + 1) % pool1024.size ∧
     (poolStep^[1024] pool1024).acquire.1 = pool1024.acquire.1) :=
  ⟨⟨by decide, by decide⟩, acquire_round_robin pool1024 10 (by decide) (by decide)⟩

/-! ## Claim C6 -/

/-- C6: a frame that is not IPv4, not UDP, or not addressed to the configured
UDP port leaves the receiver state (all counters included) unchanged. -/
theorem filtered_frame_no_state_change (r : DPDKReceiver) (frame : List Nat)
    (ts : Nat)
    (h : be16 frame 12 ≠ ETHER_TYPE_IPV4 ∨ readByte frame 23 ≠ IPPROTO_UDP ∨
      be16 frame (udpOffset frame + 2) ≠ r.cfg.udp_port) :
    DPDKReceiver.process_packet r frame ts = r := by
  unfold DPDKReceiver.process_packet
  rcases h with h | h | h
  · rw [if_pos h]
  · by_cases h1 : be16 frame 12 ≠ ETHER_TYPE_IPV4
    · rw [if_pos h1]
    · rw [if_neg h1, if_pos h]
  · by_cases h1 : be16 frame 12 ≠ ETHER_TYPE_IPV4
    · rw [if_pos h1]
    · rw [if_neg h1]
      by_cases h2 : readByte frame 23 ≠ IPPROTO_UDP
      · rw [if_pos h2]
      · rw [if_neg h2, if_pos h]

/-- C6 witness: the IPv6 frame is filtered with no state change. -/
theorem filtered_frame_no_state_change_witness :
    (be16 frame6 12 ≠ ETHER_TYPE_IPV4 ∨ readByte frame6 23 ≠ IPPROTO_UDP ∨
      be16 frame6 (udpOffset frame6 + 2) ≠ rcv0.cfg.udp_port) ∧
    DPDKReceiver.process_packet rcv0 frame6 0 = rcv0 :=
  ⟨Or.inl (by decide),
   filtered_frame_no_state_change rcv0 frame6 0 (Or.inl (by decide))⟩

/-! ## Claim C7 -/

/-- Semantics of the claim's phrase "with its trailing spaces stripped":
remove trailing spaces only.  Stated from the claim's words, to be compared
with the source's `get_symbol`, which also strips trailing NULs. -/
def stripTrailingSpaces (l : List Nat) : List Nat :=
  (l.reverse.dropWhile (fun c => c == 32)).reverse

/-- C7 counterexample: for the 2-byte input `[65, 0]` the round trip yields
`[65]`, while the claim's "trailing spaces stripped" value keeps the
trailing NUL, so the claim as stated fails. -/
theorem symbol_roundtrip_counterexample :
    (BBODataFast.clear.set_symbol [65, 0] 2).get_symbol = [65] ∧
    stripTrailingSpaces (([65, 0] : List Nat).take (min 2 8)) = [65, 0] ∧
    ([65] : List Nat) ≠ [65, 0] := by decide

/-- C7 amended: `set_symbol` then `get_symbol` yields the input truncated to
at most 8 bytes with trailing spaces AND NUL bytes stripped. -/
theorem symbol_roundtrip_amended (b : BBODataFast) (s : List Nat) (len : Nat)
    (h : len ≤ s.length) :
    (b.set_symbol s len).get_symbol = trimTrailing (s.take (min len 8)) := by
  unfold BBODataFast.get_symbol BBODataFast.set_symbol trimTrailing
  rw [List.reverse_append, List.reverse_replicate,
    dropWhile_replicate_append _ 32 rfl]

/-- C7 amended witness: instantiation at input `[65, 32]` of length 2. -/
theorem symbol_roundtrip_amended_witness :
    2 ≤ ([65, 32] : List Nat).length ∧
    (BBODataFast.clear.set_symbol [65, 32] 2).get_symbol =
      trimTrailing (([65, 32] : List Nat).take (min 2 8)) :=
  ⟨by decide, symbol_roundtrip_amended BBODataFast.clear [65, 32] 2 (by decide)⟩

/-! ## Claim C1 -/

/-- C1 counterexample: parsing the literal 28-byte payload succeeds, but the
ask raw field `00 16 E5 A0` decodes to 1500576, so the parsed ask price is
150.0576, not the claimed 150.1000. -/
theorem minimal_parse_counterexample :
    ∃ rec : BBODataFast,
      (BBOParserFast.parse aaplPayload 28 pool0 0 0).1 = some rec ∧
      rec.ask_price = 1500576 / 10000 ∧ rec.ask_price ≠ 1501 / 10 := by
  refine ⟨aaplRec, rfl, ?_, ?_⟩
  · show (be32 aaplPayload 16 : ℚ) * PRICE_MULTIPLIER = 1500576 / 10000
    rw [show be32 aaplPayload 16 = 1500576 by decide]
    norm_num [PRICE_MULTIPLIER]
  · show (be32 aaplPayload 16 : ℚ) * PRICE_MULTIPLIER ≠ 1501 / 10
    rw [show be32 aaplPayload 16 = 1500576 by decide]
    norm_num [PRICE_MULTIPLIER]

/-- C1 amended: parsing the literal 28-byte payload succeeds with trimmed
symbol `"AAPL"`, bid 150.0000, bid shares 100, ask 150.0576, ask shares 100,
spread 1.0000, `valid = 1` and `flags = 0`. -/
theorem minimal_parse_amended :
    ∃ rec : BBODataFast, ∃ p : BBOPool,
      BBOParserFast.parse aaplPayload 28 pool0 0 0 = (some rec, p) ∧
      rec.get_symbol = [65, 65, 80, 76] ∧
      rec.bid_price = 150 ∧ rec.bid_shares = 100 ∧
      rec.ask_price = 1500576 / 10000 ∧ rec.ask_shares = 100 ∧
      rec.spread = 1 ∧ rec.valid = 1 ∧ rec.flags = 0 := by
  refine ⟨aaplRec, poolW, rfl, by decide, ?_, rfl, ?_, rfl, ?_, rfl, rfl⟩
  · show (be32 aaplPayload 8 : ℚ) * PRICE_MULTIPLIER = 150
    rw [show be32 aaplPayload 8 = 1500000 by decide]
    norm_num [PRICE_MULTIPLIER]
  · show (be32 aaplPayload 16 : ℚ) * PRICE_MULTIPLIER = 1500576 / 10000
    rw [show be32 aaplPayload 16 = 1500576 by decide]
    norm_num [PRICE_MULTIPLIER]
  · show (be32 aaplPayload 24 : ℚ) * PRICE_MULTIPLIER = 1
    rw [show be32 aaplPayload 24 = 10000 by decide]
    norm_num [PRICE_MULTIPLIER]

/-! ## Claim C9 -/

set_option maxRecDepth 8192 in
/-- C9: when the UDP `dgram_len` field decodes below 8, the `size_t`
subtraction wraps to a payload length of at least 44, the parser's length
check passes, and the resulting record is valid with the hardware-timestamp
flag set. -/
theorem dgram_len_underflow (frame : List Nat) (pool : BBOPool) (ts seq : Nat)
    (hd : be16 frame (udpOffset frame + 4) < 8) :
    44 ≤ payloadLenOf frame ∧
    ∃ rec p, BBOParserFast.parse (payloadOf frame) (payloadLenOf frame) pool
        ts seq = (some rec, p) ∧ rec.valid = 1 ∧
      rec.flags &&& HAS_FPGA_TIMESTAMPS = HAS_FPGA_TIMESTAMPS := by
  have hU : U64 = 18446744073709551616 := by norm_num [U64]
  have hlen : 44 ≤ payloadLenOf frame := by
    unfold payloadLenOf
    rw [hU]
    rw [Nat.mod_eq_of_lt (by omega)]
    omega
  have hno : ¬ payloadLenOf frame < BBO_MIN_SIZE := by
    unfold BBO_MIN_SIZE; omega
  have hfull : BBO_FULL_SIZE ≤ payloadLenOf frame := by
    unfold BBO_FULL_SIZE; omega
  refine ⟨hlen, ?_⟩
  unfold BBOParserFast.parse
  rw [if_neg hno, if_pos hfull]
  refine ⟨_, _, rfl, rfl, ?_⟩
  show HAS_FPGA_TIMESTAMPS &&& HAS_FPGA_TIMESTAMPS = HAS_FPGA_TIMESTAMPS
  decide

/-- C9 witness: instantiation at the frame whose `dgram_len` decodes to 5. -/
theorem dgram_len_underflow_witness :
    be16 frame9 (udpOffset frame9 + 4) < 8 ∧
    (44 ≤ payloadLenOf frame9 ∧
     ∃ rec p, BBOParserFast.parse (payloadOf frame9) (payloadLenOf frame9)
        pool0 0 0 = (some rec, p) ∧ rec.valid = 1 ∧
        rec.flags &&& HAS_FPGA_TIMESTAMPS = HAS_FPGA_TIMESTAMPS) :=
  ⟨by decide, dgram_len_underflow frame9 pool0 0 0 (by decide)⟩

/-! ## Claim C3 -/

/-- C3 counterexample: on the truncated 27-byte payload the receiver does
increment `parse_errors` and leaves the pool head unchanged, but it is not
true that nothing else changes: `packets_received` and the packet sequence
counter both advance. -/
theorem short_payload_counterexample :
    (DPDKReceiver.process_packet rcv0 frame27 0).stats.parse_errors =
      rcv0.stats.parse_errors + 1 ∧
    (DPDKReceiver.process_packet rcv0 frame27 0).pool.head = rcv0.pool.head ∧
    (DPDKReceiver.process_packet rcv0 frame27 0).stats.packets_received ≠
      rcv0.stats.packets_received ∧
    (DPDKReceiver.process_packet rcv0 frame27 0).sequence ≠ rcv0.sequence := by
  decide

/-- C3 amended: for a frame passing the filters whose payload length is
below 28 and with statistics enabled, the parse returns the null sentinel
without touching the pool, `parse_errors` and `packets_received` each
advance by exactly 1 and the sequence counter advances; nothing else
(pool, ring, the other counters) changes. -/
theorem short_payload_amended (r : DPDKReceiver) (frame : List Nat) (ts : Nat)
    (h1 : be16 frame 12 = ETHER_TYPE_IPV4)
    (h2 : readByte frame 23 = IPPROTO_UDP)
    (h3 : be16 frame (udpOffset frame + 2) = r.cfg.udp_port)
    (h4 : payloadLenOf frame < 28)
    (h5 : r.cfg.enable_stats = true) :
    BBOParserFast.parse (payloadOf frame) (payloadLenOf frame) r.pool ts
        r.sequence = (none, r.pool) ∧
    DPDKReceiver.process_packet r frame ts =
      { r with
        stats := { r.stats with
          packets_received := r.stats.packets_received + 1,
          parse_errors := r.stats.parse_errors + 1 },
        sequence := (r.sequence + 1) % U32 } := by
  have hp : BBOParserFast.parse (payloadOf frame) (payloadLenOf frame) r.pool
      ts r.sequence = (none, r.pool) := by
    unfold BBOParserFast.parse
    rw [if_pos (show payloadLenOf frame < BBO_MIN_SIZE by
      unfold BBO_MIN_SIZE; omega)]
  refine ⟨hp, ?_⟩
  unfold DPDKReceiver.process_packet
  rw [if_neg (fun hc => hc h1), if_neg (fun hc => hc h2),
    if_neg (fun hc => hc h3)]
  simp only [h5, if_true, hp]

/-- C3 amended witness: instantiation at the truncated frame and a fresh
receiver. -/
theorem short_payload_amended_witness :
    (be16 frame27 12 = ETHER_TYPE_IPV4 ∧ readByte frame27 23 = IPPROTO_UDP ∧
     be16 frame27 (udpOffset frame27 + 2) = rcv0.cfg.udp_port ∧
     payloadLenOf frame27 < 28 ∧ rcv0.cfg.enable_stats = true) ∧
    (BBOParserFast.parse (payloadOf frame27) (payloadLenOf frame27) rcv0.pool
        0 rcv0.sequence = (none, rcv0.pool) ∧
     DPDKReceiver.process_packet rcv0 frame27 0 =
       { rcv0 with
         stats := { rcv0.stats with
           packets_received := rcv0.stats.packets_received + 1,
           parse_errors := rcv0.stats.parse_errors + 1 },
         sequence := (rcv0.sequence + 1) % U32 }) :=
  ⟨⟨by decide, by decide, by decide, by decide, rfl⟩,
   short_payload_amended rcv0 frame27 0 (by decide) (by decide) (by decide)
     (by decide) rfl⟩

/-! ## Claim C8 -/

/-- C8: two payloads of length at least 44 that agree on their first 44
bytes parse identically (same record contents, same pool effect) for the
same timestamp, sequence and pool state, and such oversized payloads are
accepted. -/
theorem parse_ignores_tail (d1 d2 : List Nat) (pool : BBOPool) (ts seq : Nat)
    (hl1 : 44 ≤ d1.length) (hl2 : 44 ≤ d2.length)
    (hag : d1.take 44 = d2.take 44) :
    BBOParserFast.parse d1 d1.length pool ts seq =
      BBOParserFast.parse d2 d2.length pool ts seq ∧
    (BBOParserFast.parse d1 d1.length pool ts seq).1.isSome = true := by
  have hb : ∀ i, i < 44 → readByte d1 i = readByte d2 i := fun i hi =>
    readByte_eq_of_take_eq d1 d2 44 i hag hi
  have h32 : ∀ off, off + 3 < 44 → be32 d1 off = be32 d2 off := by
    intro off hoff
    unfold be32
    rw [hb off (by omega), hb (off + 1) (by omega), hb (off + 2) (by omega),
      hb (off + 3) (by omega)]
  have hno1 : ¬ d1.length < BBO_MIN_SIZE := by unfold BBO_MIN_SIZE; omega
  have hno2 : ¬ d2.length < BBO_MIN_SIZE := by unfold BBO_MIN_SIZE; omega
  have hf1 : BBO_FULL_SIZE ≤ d1.length := by unfold BBO_FULL_SIZE; omega
  have hf2 : BBO_FULL_SIZE ≤ d2.length := by unfold BBO_FULL_SIZE; omega
  constructor
  · unfold BBOParserFast.parse
    rw [if_neg hno1, if_neg hno2, if_pos hf1, if_pos hf2]
    rw [hb 0 (by omega), hb 1 (by omega), hb 2 (by omega), hb 3 (by omega),
      hb 4 (by omega), hb 5 (by omega), hb 6 (by omega), hb 7 (by omega),
      h32 8 (by omega), h32 12 (by omega), h32 16 (by omega),
      h32 20 (by omega), h32 24 (by omega)]
  · unfold BBOParserFast.parse
    rw [if_neg hno1]
    rfl

/-- Tail fixture: 44 sevens followed by one extra byte. -/
def tail1 : List Nat := List.replicate 44 7 ++ [1]

/-- Tail fixture: 44 sevens followed by two different extra bytes. -/
def tail2 : List Nat := List.replicate 44 7 ++ [2, 3]

/-- C8 witness: instantiation at two oversized payloads differing only past
offset 44. -/
theorem parse_ignores_tail_witness :
    (44 ≤ tail1.length ∧ 44 ≤ tail2.length ∧ tail1.take 44 = tail2.take 44) ∧
    (BBOParserFast.parse tail1 tail1.length pool0 0 0 =
       BBOParserFast.parse tail2 tail2.length pool0 0 0 ∧
     (BBOParserFast.parse tail1 tail1.length pool0 0 0).1.isSome = true) :=
  ⟨⟨by decide, by decide, by decide⟩,
   parse_ignores_tail tail1 tail2 pool0 0 0 (by decide) (by decide)
     (by decide)⟩

/-! ## Claim C5 -/

/-- C5: `convert_and_publish` builds the gateway record by widening the
8-byte symbol with space padding and a terminating NUL at byte 15, copying
prices, shares, spread, timestamp and validity, zeroing every
hardware-timestamp field; it invokes `try_publish` once, its outcome is
exactly the ring's answer, and a `false` answer leaves the ring unchanged
(no retry, no blocking) and increments `ring_buffer_full` exactly once. -/
theorem convert_and_publish_contract (cfg : Config) (ring : BboRingBuffer)
    (stats : Stats) (fast : BBODataFast) (hs : cfg.enable_stats = true) :
    ∃ g : BBOData,
      g = to_gateway fast ∧
      g.symbol.length = 16 ∧
      (∀ i, i < 8 → readByte g.symbol i = readByte fast.symbol i) ∧
      (∀ i, 8 ≤ i → i < 15 → readByte g.symbol i = 32) ∧
      readByte g.symbol 15 = 0 ∧
      g.bid_price = fast.bid_price ∧ g.ask_price = fast.ask_price ∧
      g.bid_shares = fast.bid_shares ∧ g.ask_shares = fast.ask_shares ∧
      g.spread = fast.spread ∧ g.timestamp_ns = toInt64 fast.timestamp_ns ∧
      g.valid = (fast.valid != 0) ∧
      g.fpga_ts_t1 = 0 ∧ g.fpga_ts_t2 = 0 ∧ g.fpga_ts_t3 = 0 ∧
      g.fpga_ts_t4 = 0 ∧ g.fpga_latency_a_us = 0 ∧ g.fpga_latency_b_us = 0 ∧
      g.fpga_latency_us = 0 ∧ g.fpga_rx_timestamp = 0 ∧
      g.fpga_tx_timestamp = 0 ∧
      ((ring.try_publish g).1 = true →
        DPDKReceiver.convert_and_publish cfg ring stats fast =
          ((ring.try_publish g).2, stats)) ∧
      ((ring.try_publish g).1 = false →
        DPDKReceiver.convert_and_publish cfg ring stats fast =
          (ring,
            { stats with ring_buffer_full := stats.ring_buffer_full + 1 })) := by
  refine ⟨to_gateway fast, rfl, rfl, ?_, ?_, rfl, rfl, rfl, rfl, rfl, rfl,
    rfl, rfl, rfl, rfl, rfl, rfl, rfl, rfl, rfl, rfl, rfl, ?_, ?_⟩
  · intro i hi
    interval_cases i <;> rfl
  · intro i h8 h15
    interval_cases i <;> rfl
  · intro h
    unfold DPDKReceiver.convert_and_publish
    rw [if_pos h]
  · intro h
    have hfull : ring.try_publish (to_gateway fast) = (false, ring) := by
      unfold BboRingBuffer.try_publish
      unfold BboRingBuffer.try_publish at h
      by_cases hc : ring.entries.length < ring.capacity
      · rw [if_pos hc] at h
        simp at h
      · rw [if_neg hc]
    unfold DPDKReceiver.convert_and_publish
    rw [hfull]
    simp only [Bool.false_eq_true, if_false, hs, if_true]

/-- C5 witness: instantiation at the default configuration, the empty ring,
zeroed statistics and the warm-up record. -/
theorem convert_and_publish_contract_witness :
    Config.default.enable_stats = true ∧
    (∃ g : BBOData,
      g = to_gateway (warmRec 0 0) ∧
      g.symbol.length = 16 ∧
      (∀ i, i < 8 → readByte g.symbol i = readByte (warmRec 0 0).symbol i) ∧
      (∀ i, 8 ≤ i → i < 15 → readByte g.symbol i = 32) ∧
      readByte g.symbol 15 = 0 ∧
      g.bid_price = (warmRec 0 0).bid_price ∧
      g.ask_price = (warmRec 0 0).ask_price ∧
      g.bid_shares = (warmRec 0 0).bid_shares ∧
      g.ask_shares = (warmRec 0 0).ask_shares ∧
      g.spread = (warmRec 0 0).spread ∧
      g.timestamp_ns = toInt64 (warmRec 0 0).timestamp_ns ∧
      g.valid = ((warmRec 0 0).valid != 0) ∧
      g.fpga_ts_t1 = 0 ∧ g.fpga_ts_t2 = 0 ∧ g.fpga_ts_t3 = 0 ∧
      g.fpga_ts_t4 = 0 ∧ g.fpga_latency_a_us = 0 ∧ g.fpga_latency_b_us = 0 ∧
      g.fpga_latency_us = 0 ∧ g.fpga_rx_timestamp = 0 ∧
      g.fpga_tx_timestamp = 0 ∧
      ((ring0.try_publish g).1 = true →
        DPDKReceiver.convert_and_publish Config.default ring0 stats0
            (warmRec 0 0) = ((ring0.try_publish g).2, stats0)) ∧
      ((ring0.try_publish g).1 = false →
        DPDKReceiver.convert_and_publish Config.default ring0 stats0
            (warmRec 0 0) =
          (ring0,
            { stats0 with
              ring_buffer_full := stats0.ring_buffer_full + 1 }))) :=
  ⟨rfl, convert_and_publish_contract Config.default ring0 stats0 (warmRec 0 0)
    rfl⟩

/-! ## Claim C10 -/

/-- Effect of `process_packet` on a frame that passes all filters, parses
successfully, and publishes into a ring with free space, with statistics
enabled: both packet counters advance, the parse updates the pool, the
converted record enters the ring, and the sequence counter advances. -/
theorem process_packet_success (r : DPDKReceiver) (frame : List Nat)
    (ts : Nat) (bbo : BBODataFast) (pool2 : BBOPool)
    (h1 : be16 frame 12 = ETHER_TYPE_IPV4)
    (h2 : readByte frame 23 = IPPROTO_UDP)
    (h3 : be16 frame (udpOffset frame + 2) = r.cfg.udp_port)
    (hs : r.cfg.enable_stats = true)
    (hparse : BBOParserFast.parse (payloadOf frame) (payloadLenOf frame)
        r.pool ts r.sequence = (some bbo, pool2))
    (hring : r.ring.entries.length < r.ring.capacity) :
    DPDKReceiver.process_packet r frame ts =
      { r with
        stats := { r.stats with
          packets_received := r.stats.packets_received + 1,
          packets_processed := r.stats.packets_processed + 1 },
        pool := pool2,
        ring := { r.ring with
          entries := r.ring.entries ++ [to_gateway bbo] },
        sequence := (r.sequence + 1) % U32 } := by
  unfold DPDKReceiver.process_packet
  rw [if_neg (fun hc => hc h1), if_neg (fun hc => hc h2),
    if_neg (fun hc => hc h3)]
  simp only [hs, if_true, hparse, DPDKReceiver.convert_and_publish,
    BboRingBuffer.try_publish, if_pos hring]

set_option maxRecDepth 32768 in
/-- C10: each synthetic warm-up packet built by `create_dummy_packet` runs
the full `process_packet` path: with statistics enabled and ring space, it
increments `packets_received` and `packets_processed`, consumes one pool
slot and one sequence number, parses to the `"WARMUP  "` record with
`flags = HAS_FPGA_TIMESTAMPS` (so the `IS_SYNTHETIC` bit is clear), and
publishes its converted record into the shared-memory ring. -/
theorem warmup_packet_effects (r : DPDKReceiver) (ts : Nat)
    (hs : r.cfg.enable_stats = true)
    (hp : r.cfg.udp_port < 65536)
    (hr : r.ring.entries.length < r.ring.capacity) :
    ∃ fast : BBODataFast,
      (BBOParserFast.parse (payloadOf (create_dummy_packet r.cfg.udp_port))
          (payloadLenOf (create_dummy_packet r.cfg.udp_port)) r.pool ts
          r.sequence).1 = some fast ∧
      fast.symbol = [87, 65, 82, 77, 85, 80, 32, 32] ∧
      fast.flags = HAS_FPGA_TIMESTAMPS ∧
      fast.flags &&& IS_SYNTHETIC = 0 ∧
      DPDKReceiver.process_packet r (create_dummy_packet r.cfg.udp_port) ts =
        { r with
          stats := { r.stats with
            packets_received := r.stats.packets_received + 1,
            packets_processed := r.stats.packets_processed + 1 },
          pool := { r.pool with
            head := (r.pool.head + 1) % U32,
            slots := r.pool.slots.set (r.pool.head &&& (r.pool.size - 1))
              fast },
          ring := { r.ring with
            entries := r.ring.entries ++ [to_gateway fast] },
          sequence := (r.sequence + 1) % U32 } := by
  have hety : be16 (create_dummy_packet r.cfg.udp_port) 12 =
      ETHER_TYPE_IPV4 := by
    unfold be16
    rw [show readByte (create_dummy_packet r.cfg.udp_port) 12 = 8 from rfl,
      show readByte (create_dummy_packet r.cfg.udp_port) 13 = 0 from rfl]
    decide
  have hpro : readByte (create_dummy_packet r.cfg.udp_port) 23 =
      IPPROTO_UDP := rfl
  have hoff : udpOffset (create_dummy_packet r.cfg.udp_port) = 34 := by
    unfold udpOffset ihlOf
    rw [show readByte (create_dummy_packet r.cfg.udp_port) 14 = 69 from rfl]
    decide
  have hport : be16 (create_dummy_packet r.cfg.udp_port)
      (udpOffset (create_dummy_packet r.cfg.udp_port) + 2) =
      r.cfg.udp_port := by
    rw [hoff]
    unfold be16
    rw [show readByte (create_dummy_packet r.cfg.udp_port) (34 + 2 + 1) =
        loByte r.cfg.udp_port from rfl,
      show readByte (create_dummy_packet r.cfg.udp_port) (34 + 2) =
        hiByte r.cfg.udp_port from rfl]
    unfold hiByte loByte
    rw [Nat.shiftRight_eq_div_pow]
    rw [show (255 : Nat) = 2 ^ 8 - 1 from rfl,
      Nat.and_pow_two_sub_one_eq_mod, Nat.and_pow_two_sub_one_eq_mod]
    rw [show (2 : Nat) ^ 8 = 256 from rfl]
    omega
  have hlen : payloadLenOf (create_dummy_packet r.cfg.udp_port) = 44 := by
    unfold payloadLenOf
    rw [hoff]
    rw [show be16 (create_dummy_packet r.cfg.udp_port) (34 + 4) = 52 by
      unfold be16
      rw [show readByte (create_dummy_packet r.cfg.udp_port) (34 + 4) = 0
          from rfl,
        show readByte (create_dummy_packet r.cfg.udp_port) (34 + 4 + 1) = 52
          from rfl]]
    decide
  have hpay : payloadOf (create_dummy_packet r.cfg.udp_port) = warmPayload := by
    unfold payloadOf
    rw [hoff]
    rfl
  have hparse : BBOParserFast.parse
      (payloadOf (create_dummy_packet r.cfg.udp_port))
      (payloadLenOf (create_dummy_packet r.cfg.udp_port)) r.pool ts
      r.sequence =
      (some (warmRec ts r.sequence),
        { r.pool with
          head := (r.pool.head + 1) % U32,
          slots := r.pool.slots.set (r.pool.head &&& (r.pool.size - 1))
            (warmRec ts r.sequence) }) := by
    rw [hpay, hlen]
    rfl
  refine ⟨warmRec ts r.sequence, by rw [hparse], rfl, rfl,
    by show HAS_FPGA_TIMESTAMPS &&& IS_SYNTHETIC = 0; decide, ?_⟩
  exact process_packet_success r (create_dummy_packet r.cfg.udp_port) ts
    (warmRec ts r.sequence) _ hety hpro hport hs hparse hr

set_option maxRecDepth 32768 in
/-- C10 witness: instantiation at the fresh default receiver. -/
theorem warmup_packet_effects_witness :
    (rcv0.cfg.enable_stats = true ∧ rcv0.cfg.udp_port < 65536 ∧
     rcv0.ring.entries.length < rcv0.ring.capacity) ∧
    (∃ fast : BBODataFast,
      (BBOParserFast.parse (payloadOf (create_dummy_packet rcv0.cfg.udp_port))
          (payloadLenOf (create_dummy_packet rcv0.cfg.udp_port)) rcv0.pool 0
          rcv0.sequence).1 = some fast ∧
      fast.symbol = [87, 65, 82, 77, 85, 80, 32, 32] ∧
      fast.flags = HAS_FPGA_TIMESTAMPS ∧
      fast.flags &&& IS_SYNTHETIC = 0 ∧
      DPDKReceiver.process_packet rcv0 (create_dummy_packet rcv0.cfg.udp_port)
          0 =
        { rcv0 with
          stats := { rcv0.stats with
            packets_received := rcv0.stats.packets_received + 1,
            packets_processed := rcv0.stats.packets_processed + 1 },
          pool := { rcv0.pool with
            head := (rcv0.pool.head + 1) % U32,
            slots := rcv0.pool.slots.set
              (rcv0.pool.head &&& (rcv0.pool.size - 1)) fast },
          ring := { rcv0.ring with
            entries := rcv0.ring.entries ++ [to_gateway fast] },
          sequence := (rcv0.sequence + 1) % U32 }) :=
  ⟨⟨rfl, by decide, by decide⟩,
   warmup_packet_effects rcv0 0 rfl (by decide) (by decide)⟩
